import Mathlib

/-!
Shallow embedding of the MINERAL-APP authentication subsystem
(`utils/auth.py`, constants from `config.py`), together with theorems that
check the specification's claims against it.

Conventions of the embedding:
* The JSON user store (`load_users()["users"]`) is a `List User`; the effect
  of `save_users` is the `store` component of an operation's outcome, and an
  operation that never calls `save_users` returns the loaded store unchanged.
* Wall-clock time is passed in explicitly as unix seconds (`now : Nat`), and
  the `YYMMDD` date string as `base_date`.
* `datetime.utcfromtimestamp(t).isoformat() + "Z"` is modelled by the
  injective rendering `isoZ`, and `datetime.fromisoformat` by `fromIso?`,
  which succeeds exactly on the digit strings `isoZ` produces (after the code
  strips the trailing "Z").
* `bcrypt.hashpw` / `bcrypt.checkpw` are third-party and randomly salted, so
  hashing and checking are passed in as function arguments.
* The stream of `secrets.randbelow(10000)` draws is an explicit list, which
  also serves as fuel for the retry loop of `generate_user_id`.
-/

set_option maxRecDepth 8000

namespace Mineral

/-- config.py: `MAX_FAILED_LOGIN = 5`. -/
def MAX_FAILED_LOGIN : Nat := 5

/-- config.py: `LOCKOUT_SECONDS = 15 * 60`. -/
def LOCKOUT_SECONDS : Nat := 15 * 60

/-- config.py: `PASSWORD_RESET_EXP_SECONDS = 3600`. -/
def PASSWORD_RESET_EXP_SECONDS : Nat := 3600

/-- config.py: `PASSWORD_RESET_SALT = "password-reset-salt"`. -/
def PASSWORD_RESET_SALT : String := "password-reset-salt"

/-- config.py: the user-id application code (source name ends in a word this
development avoids in identifiers, hence the abbreviation). -/
def USER_ID_PFX : String := "MINN"

/-- One record of the user store, with the fields `create_user` writes. -/
structure User where
  user_id : String
  username : String
  first_name : String
  last_name : String
  email : String
  country : String
  organization : String
  role : String
  password_hash : String
  created_at : String
  failed_logins : Nat
  locked_until : Option String
  deriving Repr, DecidableEq

/-- One audit-log entry; the JSON dicts of `append_log` carry different key
sets per event, modelled as optional fields (the `by` key of
`account_unlocked` is `byField`, `meta` is split into its two keys). -/
structure LogEntry where
  timestamp : String
  event : String
  user_id : Option String := none
  username : Option String := none
  role : Option String := none
  reason : Option String := none
  attempts : Option Nat := none
  ip : Option String := none
  byField : Option String := none
  metaEmail : Option String := none
  metaCountry : Option String := none
  deriving Repr, DecidableEq

/-- Modelled from the spec: `datetime.utcfromtimestamp(t).isoformat() + "Z"`
renders a UTC timestamp; the ISO-8601 text is abstracted to an injective
rendering of the unix seconds, keeping the trailing "Z". -/
def isoZ (t : Nat) : String := toString t ++ "Z"

/-- Value of a string of decimal digits. -/
def digitsVal (l : List Char) : Nat := l.foldl (fun a c => a * 10 + (c.toNat - 48)) 0

/-- Modelled from the spec: `datetime.fromisoformat` parses timestamp strings
and raises on anything else; in this model exactly the non-empty digit strings
produced by `isoZ` (after the caller strips "Z") parse back to unix seconds. -/
def fromIso? (s : String) : Option Nat :=
  if s.data ≠ [] ∧ s.data.all Char.isDigit then some (digitsVal s.data) else none

/-- The code's `locked_until.replace("Z", "")`: for the single-character
pattern "Z", Python's replace-by-empty deletes every occurrence. -/
def stripZ (s : String) : String := ⟨s.data.filter (fun c => c != 'Z')⟩

/-- auth.py `find_user_by_username` (lines 118-123): first record whose
`username` field matches. -/
def find_user_by_username (store : List User) (username : String) : Option User :=
  store.find? (fun u => u.username == username)

/-- Python `s.lower()`. -/
def lowerStr (s : String) : String := ⟨s.data.map Char.toLower⟩

/-- auth.py `find_user_by_email` (lines 125-130): first record whose `email`
matches case-insensitively. -/
def find_user_by_email (store : List User) (email : String) : Option User :=
  store.find? (fun u => lowerStr u.email == lowerStr email)

/-- Result of one `authenticate` call: the returned pair, the store contents
after the call (what `save_users` wrote, or the untouched file when the branch
never saves), the appended log entries and the session assignment. -/
structure AuthOutcome where
  ok : Bool
  msg : String
  store : List User
  logs : List LogEntry
  sessionUser : Option (String × String × String)
  deriving Repr, DecidableEq

/-- The lockout test of `authenticate` (auth.py lines 145-155): the user
counts as locked when `locked_until` is a truthy (non-empty) string that
parses to a time strictly after `now`; the stored string is returned for use
in the failure message. A parse failure is caught (`locked_ts = None`) and
falls through as not locked. -/
def lockedBlock (user : User) (now : Nat) : Option String :=
  match user.locked_until with
  | none => none
  | some lu =>
    if lu = "" then none
    else
      match fromIso? (stripZ lu) with
      | none => none
      | some t => if now < t then some lu else none

/-- Continuation of `authenticate` after the lockout check (auth.py lines
157-181). `data` is the collection from the first `load_users()`; `user` is
the record found by `find_user_by_username`, which performs its own second
`load_users()`, so the updates to `user` never reach `data` and
`save_users(data)` writes the original records back unchanged. -/
def passwordStep (checkpw : String → String → Bool) (data : List User) (user : User)
    (password : String) (ip : Option String) (now : Nat) : AuthOutcome :=
  if checkpw password user.password_hash then
    let user1 := { user with failed_logins := 0, locked_until := none }
    { ok := true
      msg := "Authenticated"
      store := data
      logs := [{ timestamp := isoZ now, event := "login_success",
                 user_id := some user1.user_id, username := some user1.username, ip := ip }]
      sessionUser := some (user1.username, user1.role, user1.user_id) }
  else
    let fl := user.failed_logins + 1
    if MAX_FAILED_LOGIN ≤ fl then
      let lockStr := isoZ (now + LOCKOUT_SECONDS)
      let user1 := { user with failed_logins := fl, locked_until := some lockStr }
      { ok := false
        msg := "Too many failed attempts. Account locked until " ++ lockStr ++ " UTC."
        store := data
        logs := [{ timestamp := isoZ now, event := "account_locked",
                   user_id := some user1.user_id, username := some user1.username, ip := ip }]
        sessionUser := none }
    else
      { ok := false
        msg := "Invalid credentials."
        store := data
        logs := [{ timestamp := isoZ now, event := "login_failed",
                   user_id := some user.user_id, username := some user.username,
                   attempts := some fl, ip := ip }]
        sessionUser := none }

/-- auth.py `authenticate` (lines 135-181). Both `load_users()` calls read
the same file, so `find_user_by_username` searches the same record values that
`data` holds. -/
def authenticate (checkpw : String → String → Bool) (store : List User)
    (username password : String) (ip : Option String) (now : Nat) : AuthOutcome :=
  let data := store
  match find_user_by_username store username with
  | none =>
    { ok := false
      msg := "Invalid credentials."
      store := data
      logs := [{ timestamp := isoZ now, event := "login_failed",
                 username := some username, reason := some "no_user", ip := ip }]
      sessionUser := none }
  | some user =>
    match lockedBlock user now with
    | some lu =>
      { ok := false
        msg := "Account locked until " ++ lu ++ " UTC."
        store := data
        logs := [{ timestamp := isoZ now, event := "login_blocked",
                   user_id := some user.user_id, reason := some "locked", ip := ip }]
        sessionUser := none }
    | none => passwordStep checkpw data user password ip now

/-- auth.py `(first_name[:1] + last_name[:1]).upper()` (line 32). -/
def initialsOf (first_name last_name : String) : String :=
  ⟨(first_name.data.take 1 ++ last_name.data.take 1).map Char.toUpper⟩

/-- Python `f"{n:04d}"` for the 4-digit random component. -/
def pad4 (n : Nat) : String :=
  if n < 10 then "000" ++ toString n
  else if n < 100 then "00" ++ toString n
  else if n < 1000 then "0" ++ toString n
  else toString n

/-- Python `f"{n:02d}"` for the 2-digit checksum. -/
def pad2 (n : Nat) : String :=
  if n < 10 then "0" ++ toString n else toString n

/-- Python `sum(ord(c) for c in s)`. -/
def ordSum (s : String) : Nat := s.data.foldl (fun a c => a + c.toNat) 0

/-- auth.py line 36: `f"{PREFIX}{base_date}{initials}{rand4:04d}"`. -/
def userIdCore (base_date initials : String) (rand4 : Nat) : String :=
  USER_ID_PFX ++ base_date ++ initials ++ pad4 rand4

/-- Candidate id of the normal branch (auth.py lines 37-39): the core followed
by its 2-digit mod-97 checksum. -/
def checksumId (base_date initials : String) (rand4 : Nat) : String :=
  userIdCore base_date initials rand4 ++ pad2 (ordSum (userIdCore base_date initials rand4) % 97)

/-- Candidate id of the fallback branch (auth.py line 45): the core followed
by `str(int(time.time()) % 10000)`, with no zero-padding and no checksum. -/
def fallbackId (base_date initials : String) (rand4 unixTime : Nat) : String :=
  userIdCore base_date initials rand4 ++ toString (unixTime % 10000)

/-- auth.py `any(u.get("user_id") == user_id for u in users)`. -/
def hasUserId (users : List User) (uid : String) : Bool :=
  users.any (fun u => u.user_id == uid)

/-- The `while True` loop of `generate_user_id` (auth.py lines 33-47) with the
stream of `secrets.randbelow(10000)` draws explicit. Each iteration draws,
builds the checksummed candidate and returns it if unused; otherwise, once the
attempt counter has passed 50, it additionally tries the time-based fallback.
`none` means the supplied draws were exhausted with every candidate colliding
(the Python loop would keep drawing forever in that situation). -/
def genUserIdLoop (users : List User) (base_date initials : String) (unixTime : Nat) :
    List Nat → Nat → Option String
  | [], _ => none
  | rand4 :: rest, attempt =>
    let uid := checksumId base_date initials rand4
    if hasUserId users uid then
      let a1 := attempt + 1
      if 50 < a1 then
        let fb := fallbackId base_date initials rand4 unixTime
        if hasUserId users fb then genUserIdLoop users base_date initials unixTime rest a1
        else some fb
      else genUserIdLoop users base_date initials unixTime rest a1
    else some uid

/-- auth.py `generate_user_id` (lines 23-47). -/
def generate_user_id (store : List User) (first_name last_name : String)
    (base_date : String) (unixTime : Nat) (draws : List Nat) : Option String :=
  genUserIdLoop store base_date (initialsOf first_name last_name) unixTime draws 0

/-- auth.py `''.join(ch for ch in s.lower() if ch.isalnum())`. -/
def alnumLower (s : String) : String :=
  ⟨(s.data.map Char.toLower).filter Char.isAlphanum⟩

/-- The username base of `generate_username` (auth.py lines 56-60):
`firstname.lastname.countrycode[.orgshort]`, the organization part included
only when it is non-empty after normalization of a non-empty `org`. -/
def usernameBase (first_name last_name country org : String) : String :=
  let fn := alnumLower first_name
  let ln := alnumLower last_name
  let cc : String := ⟨(alnumLower country).data.take 3⟩
  let orgshort : String := if org = "" then "" else ⟨(alnumLower org).data.take 3⟩
  fn ++ "." ++ ln ++ "." ++ cc ++ (if orgshort = "" then "" else "." ++ orgshort)

/-- auth.py `username in {u["username"] for u in users}`. -/
def hasUsername (users : List User) (un : String) : Bool :=
  users.any (fun u => u.username == un)

/-- The collision loop of `generate_username` (auth.py lines 61-67): try the
base, then `base1`, `base2`, ... until unused. The Python loop always
terminates because the store is finite; the fuel only bounds the unrolling in
this model, and `create_user` supplies fuel `store.length + 1`. -/
def genUsernameLoop (users : List User) (base : String) :
    Nat → Nat → String → Option String
  | 0, _, _ => none
  | fuel + 1, suffix, username =>
    if hasUsername users username then
      genUsernameLoop users base fuel (suffix + 1) (base ++ toString suffix)
    else some username

/-- auth.py `generate_username` (lines 49-67). -/
def generate_username (store : List User) (first_name last_name country org : String) :
    Option String :=
  let base := usernameBase first_name last_name country org
  genUsernameLoop store base (store.length + 1) 1 base

/-- auth.py `create_user` (lines 83-116). Unlike `authenticate`, here
`users.append(new_user)` mutates the list inside the loaded `data`, so the new
record is persisted by `save_users(data)`. The result carries the returned
record, the saved store and the appended log entry; `none` only when the model
ran out of random draws or username fuel. -/
def create_user (hashpw : String → String) (store : List User)
    (first_name last_name email country org role password : String)
    (base_date created_at : String) (unixTime : Nat) (draws : List Nat) :
    Option (User × List User × List LogEntry) :=
  match generate_user_id store first_name last_name base_date unixTime draws with
  | none => none
  | some uid =>
    match generate_username store first_name last_name country org with
    | none => none
    | some uname =>
      let newUser : User :=
        { user_id := uid, username := uname, first_name := first_name,
          last_name := last_name, email := email, country := country,
          organization := org, role := role, password_hash := hashpw password,
          created_at := created_at, failed_logins := 0, locked_until := none }
      some (newUser, store ++ [newUser],
        [{ timestamp := created_at, event := "user_created", user_id := some uid,
           username := some uname, role := some role,
           metaEmail := some email, metaCountry := some country }])

/-- Outcome of `unlock_account` / `reset_password`: returned flag, saved store
(these two operations mutate the same load they save, so their updates are
persisted), appended log entries. -/
structure OpOutcome where
  ok : Bool
  store : List User
  logs : List LogEntry
  deriving Repr, DecidableEq

/-- The `for u in users: if <match>: <mutate; save; log; return True>` pattern
shared by `unlock_account` and `reset_password`: update the first matching
record, returning it together with the rewritten list. -/
def updFirst (p : User → Bool) (f : User → User) : List User → Option (User × List User)
  | [] => none
  | u :: us =>
    if p u then some (f u, f u :: us)
    else (updFirst p f us).map (fun r => (r.1, u :: r.2))

/-- auth.py `unlock_account` (lines 237-247): unconditionally clears
`failed_logins` and `locked_until` of the matching user. -/
def unlock_account (store : List User) (user_id : String) (now : Nat) : OpOutcome :=
  match updFirst (fun u => u.user_id == user_id)
      (fun u => { u with failed_logins := 0, locked_until := none }) store with
  | some r =>
    { ok := true, store := r.2,
      logs := [{ timestamp := isoZ now, event := "account_unlocked",
                 user_id := some user_id, byField := some "admin" }] }
  | none => { ok := false, store := store, logs := [] }

/-- auth.py `reset_password` (lines 201-212): case-insensitive email match,
replaces the password hash and clears `failed_logins` / `locked_until`. -/
def reset_password (hashpw : String → String) (store : List User)
    (email new_password : String) (now : Nat) : OpOutcome :=
  match updFirst (fun u => lowerStr u.email == lowerStr email)
      (fun u => { u with password_hash := hashpw new_password,
                         failed_logins := 0, locked_until := none }) store with
  | some r =>
    { ok := true, store := r.2,
      logs := [{ timestamp := isoZ now, event := "password_reset",
                 user_id := some r.1.user_id, username := some r.1.username }] }
  | none => { ok := false, store := store, logs := [] }

/-- Modelled from the spec: the signature of `itsdangerous`'s
`URLSafeTimedSerializer` — an HMAC keyed by the app secret together with the
purpose salt, over the payload and the issue timestamp; any concrete keyed
mixing function represents it here. -/
def tokenSig (secret salt email : String) (issued : Nat) : Nat :=
  (secret ++ "/" ++ salt ++ "/" ++ email).data.foldl (fun a c => a * 131 + c.toNat) 7
    * 1000003 + issued

/-- Modelled from the spec: the reset token is a self-contained capsule of the
email, the issue time and the signature over both. -/
structure ResetToken where
  email : String
  issued : Nat
  sig : Nat
  deriving Repr, DecidableEq

/-- The two failure kinds `itsdangerous` raises on `loads`. -/
inductive TokenErr where
  | badSignature
  | signatureExpired
  deriving Repr, DecidableEq

/-- Modelled from the spec: `s.dumps(email, salt=...)` packs the email, the
issue time and the signature into the token. -/
def dumps (secret salt email : String) (now : Nat) : ResetToken :=
  { email := email, issued := now, sig := tokenSig secret salt email now }

/-- Modelled from the spec: `s.loads(token, salt=..., max_age=...)` checks the
signature first, then raises `SignatureExpired` when the age exceeds
`max_age`; otherwise it returns the embedded payload. -/
def loadsToken (secret salt : String) (tok : ResetToken) (max_age now : Nat) :
    Except TokenErr String :=
  if tok.sig ≠ tokenSig secret salt tok.email tok.issued then .error .badSignature
  else if max_age < now - tok.issued then .error .signatureExpired
  else .ok tok.email

/-- auth.py `generate_reset_token` (lines 186-188). -/
def generate_reset_token (secret email : String) (now : Nat) : ResetToken :=
  dumps secret PASSWORD_RESET_SALT email now

/-- auth.py `verify_reset_token` (lines 190-199): `max_age` defaults to
`PASSWORD_RESET_EXP_SECONDS`; both exception paths return `None`. -/
def verify_reset_token (secret : String) (tok : ResetToken) (max_age : Option Nat)
    (now : Nat) : Option String :=
  let ma := max_age.getD PASSWORD_RESET_EXP_SECONDS
  match loadsToken secret PASSWORD_RESET_SALT tok ma now with
  | .ok email => some email
  | .error .signatureExpired => none
  | .error .badSignature => none

/-- Uniqueness invariant on the generated identity fields: no two records
share a `user_id` and no two share a `username`. -/
def storeInvIdU (store : List User) : Prop :=
  (store.map (fun u => u.user_id)).Nodup ∧ (store.map (fun u => u.username)).Nodup

/-- Case-insensitive email uniqueness, the third part of the spec's store
invariant. -/
def emailInv (store : List User) : Prop :=
  (store.map (fun u => lowerStr u.email)).Nodup

instance (store : List User) : Decidable (storeInvIdU store) := by
  unfold storeInvIdU
  infer_instance

instance (store : List User) : Decidable (emailInv store) := by
  unfold emailInv
  infer_instance

/-- The arguments of one `create_user` call, together with the ambient date,
clock value and random draws of that call. -/
structure CreateReq where
  first_name : String
  last_name : String
  email : String
  country : String
  org : String
  role : String
  password : String
  base_date : String
  created_at : String
  unixTime : Nat
  draws : List Nat
  deriving Repr

/-- A sequence of `create_user` calls, each seeing the store the previous one
saved. -/
def runCreates (hashpw : String → String) : List CreateReq → List User → Option (List User)
  | [], store => some store
  | r :: rs, store =>
    match create_user hashpw store r.first_name r.last_name r.email r.country r.org
        r.role r.password r.base_date r.created_at r.unixTime r.draws with
    | none => none
    | some result => runCreates hashpw rs result.2.1

/-- The shape every id returned by `generate_user_id` has: some draw's core
followed either by that core's 2-digit mod-97 checksum (normal branch) or by
`unix-time mod 10000` rendered without padding (fallback branch). -/
def idShape (base_date initials : String) (unixTime : Nat) (draws : List Nat)
    (uid : String) : Prop :=
  ∃ r, r ∈ draws ∧
    (uid = userIdCore base_date initials r
             ++ pad2 (ordSum (userIdCore base_date initials r) % 97) ∨
     uid = userIdCore base_date initials r ++ toString (unixTime % 10000))

/-- A concrete user record for the concrete-input theorems. -/
def mkUser (uid un pwh : String) (fl : Nat) (lu : Option String) : User :=
  { user_id := uid, username := un, first_name := "A", last_name := "B",
    email := "a@x.com", country := "ZA", organization := "MINN", role := "Investor",
    password_hash := pwh, created_at := "t0", failed_logins := fl, locked_until := lu }

/-- A store already holding the checksummed candidate that draws of 0 keep
producing for date "250715" and initials "AB". -/
def clashStore1 : List User := [mkUser (checksumId "250715" "AB" 0) "u1" "x" 0 none]

/-- As `clashStore1`, but the time-0 fallback candidate of the same core is
taken as well. -/
def clashStore2 : List User :=
  clashStore1 ++ [mkUser (fallbackId "250715" "AB" 0 0) "u2" "x" 0 none]

/-- As `clashStore2`, with the checksummed candidate of draw 1 also taken; the
fallback candidate of draw 1 stays free. -/
def clashStore3 : List User :=
  clashStore2 ++ [mkUser (checksumId "250715" "AB" 1) "u3" "x" 0 none]

/-- First signup request of the duplicate-email scenario. -/
def claim5req1 : CreateReq :=
  { first_name := "Jane", last_name := "Doe", email := "jane@x.com",
    country := "SouthAfrica", org := "MINN", role := "Researcher", password := "p",
    base_date := "250715", created_at := "t1", unixTime := 0, draws := [0] }

/-- Second signup request: same person data and the same email, a fresh random
draw. -/
def claim5req2 : CreateReq :=
  { claim5req1 with created_at := "t2", draws := [1] }

/-- One-step unfolding of the retry loop. -/
theorem genUserIdLoop_cons (users : List User) (bd init : String) (t : Nat)
    (r : Nat) (rest : List Nat) (attempt : Nat) :
    genUserIdLoop users bd init t (r :: rest) attempt
      = if hasUserId users (checksumId bd init r) then
          (if 50 < attempt + 1 then
            (if hasUserId users (fallbackId bd init r t) then
               genUserIdLoop users bd init t rest (attempt + 1)
             else some (fallbackId bd init r t))
           else genUserIdLoop users bd init t rest (attempt + 1))
        else some (checksumId bd init r) := rfl

/-- Every id the retry loop returns is absent from the store it checked. -/
theorem genUserIdLoop_fresh (users : List User) (bd init : String) (t : Nat)
    (draws : List Nat) : ∀ (att : Nat) (uid : String),
    genUserIdLoop users bd init t draws att = some uid → hasUserId users uid = false := by
  induction draws with
  | nil => intro att uid h; simp [genUserIdLoop] at h
  | cons r rest ih =>
    intro att uid h
    unfold genUserIdLoop at h
    dsimp only at h
    split at h
    · split at h
      · split at h
        · exact ih _ _ h
        · injection h with h'
          subst h'
          simp_all
      · exact ih _ _ h
    · injection h with h'
      subst h'
      simp_all

/-- Every id the retry loop returns is one draw's core followed by either its
checksum or the time fallback. -/
theorem genUserIdLoop_shape (users : List User) (bd init : String) (t : Nat)
    (draws : List Nat) : ∀ (att : Nat) (uid : String),
    genUserIdLoop users bd init t draws att = some uid → idShape bd init t draws uid := by
  induction draws with
  | nil => intro att uid h; simp [genUserIdLoop] at h
  | cons r rest ih =>
    intro att uid h
    unfold genUserIdLoop at h
    dsimp only at h
    split at h
    · split at h
      · split at h
        · obtain ⟨x, hx, hs⟩ := ih _ _ h
          exact ⟨x, List.mem_cons_of_mem _ hx, hs⟩
        · injection h with h'
          exact ⟨r, List.mem_cons_self _ _, Or.inr h'.symm⟩
      · obtain ⟨x, hx, hs⟩ := ih _ _ h
        exact ⟨x, List.mem_cons_of_mem _ hx, hs⟩
    · injection h with h'
      exact ⟨r, List.mem_cons_self _ _, Or.inl h'.symm⟩

/-- Draws whose checksummed candidate and fallback candidate are both taken
are skipped, whatever the attempt counter says. -/
theorem genUserIdLoop_all_collide (users : List User) (bd init : String) (t : Nat)
    (ds rest : List Nat) :
    ∀ (k : Nat),
    (∀ x ∈ ds, hasUserId users (checksumId bd init x) = true) →
    (∀ x ∈ ds, hasUserId users (fallbackId bd init x t) = true) →
    genUserIdLoop users bd init t (ds ++ rest) k
      = genUserIdLoop users bd init t rest (k + ds.length) := by
  induction ds with
  | nil => intro k _ _; simp
  | cons r ds ih =>
    intro k hcs hfb
    have hr := hcs r (List.mem_cons_self _ _)
    have hfr := hfb r (List.mem_cons_self _ _)
    have hcs' : ∀ x ∈ ds, hasUserId users (checksumId bd init x) = true :=
      fun x hx => hcs x (List.mem_cons_of_mem _ hx)
    have hfb' : ∀ x ∈ ds, hasUserId users (fallbackId bd init x t) = true :=
      fun x hx => hfb x (List.mem_cons_of_mem _ hx)
    rw [List.cons_append, genUserIdLoop_cons]
    simp only [hr, hfr, if_true, ite_true, ite_self]
    rw [ih (k + 1) hcs' hfb']
    congr 1
    simp only [List.length_cons]
    omega

/-- Every username the collision loop returns is absent from the store. -/
theorem genUsernameLoop_fresh (users : List User) (base : String) :
    ∀ (fuel suffix : Nat) (un u : String),
    genUsernameLoop users base fuel suffix un = some u → hasUsername users u = false := by
  intro fuel
  induction fuel with
  | zero => intro s un u h; simp [genUsernameLoop] at h
  | succ n ih =>
    intro s un u h
    unfold genUsernameLoop at h
    split at h
    · exact ih _ _ _ h
    · injection h with h'
      subst h'
      simp_all

theorem hasUserId_false_iff (users : List User) (uid : String) :
    hasUserId users uid = false ↔ ∀ u ∈ users, u.user_id ≠ uid := by
  simp [hasUserId]

theorem hasUsername_false_iff (users : List User) (un : String) :
    hasUsername users un = false ↔ ∀ u ∈ users, u.username ≠ un := by
  simp [hasUsername]

/-- Appending a record with fresh `user_id` and `username` preserves their
uniqueness. -/
theorem storeInvIdU_append (store : List User) (u : User)
    (hinv : storeInvIdU store)
    (hid : hasUserId store u.user_id = false)
    (hun : hasUsername store u.username = false) :
    storeInvIdU (store ++ [u]) := by
  obtain ⟨h1, h2⟩ := hinv
  rw [hasUserId_false_iff] at hid
  rw [hasUsername_false_iff] at hun
  constructor
  · simp [List.nodup_append, h1]
    intro x hx hx'
    exact hid x hx hx'
  · simp [List.nodup_append, h2]
    intro x hx hx'
    exact hun x hx hx'

/-- One successful `create_user` call preserves id/username uniqueness. -/
theorem create_user_inv (hashpw : String → String) (store : List User)
    (fn ln em co og ro pw bd ca : String) (t : Nat) (draws : List Nat)
    (result : User × List User × List LogEntry)
    (h : create_user hashpw store fn ln em co og ro pw bd ca t draws = some result)
    (hinv : storeInvIdU store) : storeInvIdU result.2.1 := by
  unfold create_user at h
  cases hgen : generate_user_id store fn ln bd t draws with
  | none => rw [hgen] at h; cases h
  | some uid =>
    rw [hgen] at h
    cases hun : generate_username store fn ln co og with
    | none => rw [hun] at h; cases h
    | some uname =>
      simp only [hun] at h
      injection h with h'
      subst h'
      dsimp only
      apply storeInvIdU_append _ _ hinv
      · exact genUserIdLoop_fresh store bd (initialsOf fn ln) t draws 0 uid hgen
      · exact genUsernameLoop_fresh store (usernameBase fn ln co og)
          (store.length + 1) 1 (usernameBase fn ln co og) uname hun

/-- Id/username uniqueness is preserved along any `create_user` sequence. -/
theorem runCreates_inv_general (hashpw : String → String) (reqs : List CreateReq) :
    ∀ (store store1 : List User), storeInvIdU store →
      runCreates hashpw reqs store = some store1 → storeInvIdU store1 := by
  induction reqs with
  | nil =>
    intro store store1 hinv h
    unfold runCreates at h
    injection h with h'
    subst h'
    exact hinv
  | cons r rs ih =>
    intro store store1 hinv h
    unfold runCreates at h
    cases hc : create_user hashpw store r.first_name r.last_name r.email r.country r.org
        r.role r.password r.base_date r.created_at r.unixTime r.draws with
    | none => rw [hc] at h; cases h
    | some result =>
      rw [hc] at h
      exact ih _ _ (create_user_inv hashpw store r.first_name r.last_name r.email
        r.country r.org r.role r.password r.base_date r.created_at r.unixTime
        r.draws result hc hinv) h

/-- A stored `locked_until` string that is non-empty, parses, and lies in the
future triggers the locked branch. -/
theorem lockedBlock_some (user : User) (now t : Nat) (lu : String)
    (hlu : user.locked_until = some lu) (hne : lu ≠ "")
    (hparse : fromIso? (stripZ lu) = some t) (hfut : now < t) :
    lockedBlock user now = some lu := by
  simp [lockedBlock, hlu, hne, hparse, hfut]

/-- A stored `locked_until` string that fails to parse never triggers the
locked branch. -/
theorem lockedBlock_none_of_parse_fail (user : User) (now : Nat) (lu : String)
    (hlu : user.locked_until = some lu)
    (hparse : fromIso? (stripZ lu) = none) :
    lockedBlock user now = none := by
  by_cases h0 : lu = ""
  · simp [lockedBlock, hlu, h0]
  · simp [lockedBlock, hlu, h0, hparse]

/-- C1, counterexample: after 51 colliding draws the fallback branch returns
`core ++ "0"` (unix-time 0 mod 10000, rendered without padding); its trailing
2 characters "00" are not the zero-padded checksum "16" of the preceding
string, so the checksum property fails on the collision-fallback branch. -/
theorem claim1_fallback_breaks_checksum :
    generate_user_id clashStore1 "Ann" "Bee" "250715" 0 (List.replicate 51 0)
        = some (fallbackId "250715" "AB" 0 0) ∧
    ¬ ((fallbackId "250715" "AB" 0 0).data.drop ((fallbackId "250715" "AB" 0 0).data.length - 2)
        = (pad2 (ordSum ⟨(fallbackId "250715" "AB" 0 0).data.take
            ((fallbackId "250715" "AB" 0 0).data.length - 2)⟩ % 97)).data) := by
  exact ⟨by rfl, by decide⟩

/-- C1, amended: every string `generate_user_id` returns is some draw's core
followed either by the zero-padded mod-97 checksum of that core (normal
branch) or by `unix-time mod 10000` with no checksum (fallback branch); the
trailing-2-characters checksum property holds exactly on the normal branch. -/
theorem claim1_id_shape (store : List User) (fn ln bd : String) (t : Nat)
    (draws : List Nat) (uid : String)
    (h : generate_user_id store fn ln bd t draws = some uid) :
    idShape bd (initialsOf fn ln) t draws uid :=
  genUserIdLoop_shape store bd (initialsOf fn ln) t draws 0 uid h

/-- C1, witness for the amended theorem at a concrete input. -/
theorem claim1_id_shape_witness :
    idShape "250715" "AB" 0 [7] (checksumId "250715" "AB" 7) :=
  claim1_id_shape [] "Ann" "Bee" "250715" 0 [7] (checksumId "250715" "AB" 7) (by rfl)

/-- C2: a user at `failed_logins = 4` (threshold minus one) fails a password
check at `now = 1000`; the call logs `account_locked` and returns the lockout
message for `now + LOCKOUT_SECONDS = 1900`, as the claim says, but the saved
store is the unmodified original (the mutated record came from the second
`load_users()` in `find_user_by_username`), so the subsequent correct-password
call at `now = 1100` — before the announced `locked_until` — succeeds instead
of failing with a locked message. -/
theorem claim2_lockout_not_persisted :
    (authenticate (fun p h => p == h) [mkUser "U1" "alice" "hunter2" 4 none]
        "alice" "wrong" none 1000).msg
      = "Too many failed attempts. Account locked until 1900Z UTC." ∧
    (authenticate (fun p h => p == h) [mkUser "U1" "alice" "hunter2" 4 none]
        "alice" "wrong" none 1000).logs
      = [{ timestamp := "1000Z", event := "account_locked",
           user_id := some "U1", username := some "alice", ip := none }] ∧
    (authenticate (fun p h => p == h) [mkUser "U1" "alice" "hunter2" 4 none]
        "alice" "wrong" none 1000).store
      = [mkUser "U1" "alice" "hunter2" 4 none] ∧
    (authenticate (fun p h => p == h)
        (authenticate (fun p h => p == h) [mkUser "U1" "alice" "hunter2" 4 none]
          "alice" "wrong" none 1000).store
        "alice" "hunter2" none 1100).ok = true := by
  exact ⟨rfl, rfl, rfl, rfl⟩

/-- C3: a correct-password login for a user with `failed_logins = 3` returns
success, sets the session and logs `login_success` as the claim says, but the
persisted record still has `failed_logins = 3`: the reset to 0 happened on the
record of the second `load_users()` while the first, unmodified collection was
saved. -/
theorem claim3_success_reset_not_persisted :
    (authenticate (fun p h => p == h) [mkUser "U1" "alice" "pw" 3 none]
        "alice" "pw" none 50).ok = true ∧
    (authenticate (fun p h => p == h) [mkUser "U1" "alice" "pw" 3 none]
        "alice" "pw" none 50).sessionUser = some ("alice", "Investor", "U1") ∧
    (authenticate (fun p h => p == h) [mkUser "U1" "alice" "pw" 3 none]
        "alice" "pw" none 50).logs
      = [{ timestamp := "50Z", event := "login_success",
           user_id := some "U1", username := some "alice", ip := none }] ∧
    (authenticate (fun p h => p == h) [mkUser "U1" "alice" "pw" 3 none]
        "alice" "pw" none 50).store
      = [mkUser "U1" "alice" "pw" 3 none] := by
  exact ⟨rfl, rfl, rfl, rfl⟩

/-- C4: for a known user whose stored `locked_until` parses to a strictly
future time, `authenticate` fails with a message embedding that stored
timestamp, logs `login_blocked`, sets no session, and the persisted store is
the one that was loaded, entirely unchanged — for every password and every
password checker. -/
theorem claim4_locked_frame (checkpw : String → String → Bool) (store : List User)
    (username password : String) (ip : Option String) (now : Nat)
    (user : User) (lu : String) (t : Nat)
    (hfind : find_user_by_username store username = some user)
    (hlu : user.locked_until = some lu) (hne : lu ≠ "")
    (hparse : fromIso? (stripZ lu) = some t) (hfut : now < t) :
    authenticate checkpw store username password ip now =
      { ok := false, msg := "Account locked until " ++ lu ++ " UTC.", store := store,
        logs := [{ timestamp := isoZ now, event := "login_blocked",
                   user_id := some user.user_id, reason := some "locked", ip := ip }],
        sessionUser := none } := by
  have hb := lockedBlock_some user now t lu hlu hne hparse hfut
  simp [authenticate, hfind, hb]

/-- C4, witness: a locked user rejected at a concrete input even though the
supplied password is the correct one. -/
theorem claim4_locked_frame_witness :
    authenticate (fun p h => p == h) [mkUser "U1" "alice" "pw" 0 (some "500Z")]
        "alice" "pw" none 100 =
      { ok := false, msg := "Account locked until 500Z UTC.",
        store := [mkUser "U1" "alice" "pw" 0 (some "500Z")],
        logs := [{ timestamp := "100Z", event := "login_blocked",
                   user_id := some "U1", reason := some "locked", ip := none }],
        sessionUser := none } :=
  claim4_locked_frame (fun p h => p == h) [mkUser "U1" "alice" "pw" 0 (some "500Z")]
    "alice" "pw" none 100 (mkUser "U1" "alice" "pw" 0 (some "500Z")) "500Z" 500
    (by rfl) (by rfl) (by decide) (by rfl) (by decide)

/-- C5, counterexample: starting from the empty store (which satisfies the
full invariant), two `create_user` calls with the same email both complete,
and the resulting store holds two records whose case-normalized emails are
equal — `create_user` never checks email uniqueness. -/
theorem claim5_email_not_unique :
    emailInv [] ∧ storeInvIdU [] ∧
    (runCreates (fun p => p) [claim5req1, claim5req2] []).map
        (fun s => s.map (fun u => lowerStr u.email)) = some ["jane@x.com", "jane@x.com"] ∧
    ¬ emailInv ((runCreates (fun p => p) [claim5req1, claim5req2] []).getD []) := by
  exact ⟨by decide, by decide, by rfl, by decide⟩

/-- C5, amended: after any sequence of completed `create_user` operations from
a store with unique `user_id`s and `username`s, those two fields are still
unique across the store; the email part of the claimed invariant is not
maintained by `create_user`. -/
theorem claim5_id_username_unique (hashpw : String → String) (reqs : List CreateReq)
    (store store1 : List User) (hinv : storeInvIdU store)
    (h : runCreates hashpw reqs store = some store1) : storeInvIdU store1 :=
  runCreates_inv_general hashpw reqs store store1 hinv h

/-- C5, witness for the amended theorem on a concrete two-request run. -/
theorem claim5_id_username_unique_witness :
    storeInvIdU ((runCreates (fun p => p) [claim5req1, claim5req2] []).getD []) :=
  claim5_id_username_unique (fun p => p) [claim5req1, claim5req2] []
    ((runCreates (fun p => p) [claim5req1, claim5req2] []).getD [])
    (by decide) (by decide)

/-- C6: a token freshly generated for an email verifies back to that email
while the elapsed time is at most the default `max_age` of 3600 seconds,
verifies to `none` once the elapsed time exceeds it, and any token whose
signature does not match its own payload (a mutated token) also verifies to
`none` — the expired and tampered cases return the same value. -/
theorem claim6_token (secret email : String) (t0 t1 : Nat) (tok : ResetToken) :
    (t1 - t0 ≤ PASSWORD_RESET_EXP_SECONDS →
      verify_reset_token secret (generate_reset_token secret email t0) none t1 = some email) ∧
    (PASSWORD_RESET_EXP_SECONDS < t1 - t0 →
      verify_reset_token secret (generate_reset_token secret email t0) none t1 = none) ∧
    (tok.sig ≠ tokenSig secret PASSWORD_RESET_SALT tok.email tok.issued →
      verify_reset_token secret tok none t1 = none) := by
  refine ⟨fun hin => ?_, fun hout => ?_, fun hsig => ?_⟩
  · simp [verify_reset_token, generate_reset_token, dumps, loadsToken, Nat.not_lt.mpr hin]
  · simp [verify_reset_token, generate_reset_token, dumps, loadsToken, hout]
  · simp [verify_reset_token, loadsToken, hsig]

/-- C6, witness at the expiry boundary and for a zeroed-out signature. -/
theorem claim6_token_witness :
    (verify_reset_token "k" (generate_reset_token "k" "a@b" 5) none 3605 = some "a@b") ∧
    (verify_reset_token "k" (generate_reset_token "k" "a@b" 5) none 3606 = none) ∧
    (verify_reset_token "k" ⟨"a@b", 5, 0⟩ none 3605 = none) :=
  ⟨(claim6_token "k" "a@b" 5 3605 ⟨"a@b", 5, 0⟩).1 (by decide),
   (claim6_token "k" "a@b" 5 3606 ⟨"a@b", 5, 0⟩).2.1 (by decide),
   (claim6_token "k" "a@b" 5 3605 ⟨"a@b", 5, 0⟩).2.2 (by decide)⟩

/-- C7, counterexample: against a store holding both the checksummed candidate
and the time fallback that 52 draws of 0 keep producing, the loop runs through
all 52 attempts — more than 50 retries — without completing via its fallback,
so the claimed bound does not hold for every store and draw sequence (the
Python loop would keep drawing forever here). -/
theorem claim7_not_bounded :
    generate_user_id clashStore2 "Ann" "Bee" "250715" 0 (List.replicate 52 0) = none := by
  rfl

/-- C7, amended: the loop first reaches its fallback after 50 retries (the
51st colliding attempt) and completes with it there provided the fallback id
is itself unused; when the fallback also collides the loop keeps retrying
beyond 50, so termination depends on some candidate being free. -/
theorem claim7_fallback_completion (users : List User) (bd init : String) (t : Nat)
    (ds : List Nat) (r : Nat)
    (hlen : ds.length = 50)
    (hcs : ∀ x ∈ ds, hasUserId users (checksumId bd init x) = true)
    (hfb : ∀ x ∈ ds, hasUserId users (fallbackId bd init x t) = true)
    (hr : hasUserId users (checksumId bd init r) = true)
    (hfree : hasUserId users (fallbackId bd init r t) = false) :
    genUserIdLoop users bd init t (ds ++ [r]) 0 = some (fallbackId bd init r t) := by
  rw [genUserIdLoop_all_collide users bd init t ds [r] 0 hcs hfb, hlen, genUserIdLoop_cons]
  simp [hr, hfree]

/-- C7, witness: fallback completion on the 51st attempt at a concrete
store. -/
theorem claim7_fallback_completion_witness :
    genUserIdLoop clashStore3 "250715" "AB" 0 (List.replicate 50 0 ++ [1]) 0
      = some (fallbackId "250715" "AB" 1 0) :=
  claim7_fallback_completion clashStore3 "250715" "AB" 0 (List.replicate 50 0) 1
    (by decide) (by decide) (by decide) (by rfl) (by rfl)

/-- C8: the user-facing failure message for an unknown username equals the one
for a known, unlocked user whose password mismatches below the lockout
threshold — both are the generic "Invalid credentials.", so the two causes are
indistinguishable from the returned message. -/
theorem claim8_no_enumeration (checkpw : String → String → Bool)
    (store1 store2 : List User) (un1 pw1 un2 pw2 : String)
    (ip1 ip2 : Option String) (now1 now2 : Nat) (user : User)
    (h1 : find_user_by_username store1 un1 = none)
    (h2 : find_user_by_username store2 un2 = some user)
    (hb : lockedBlock user now2 = none)
    (hpw : checkpw pw2 user.password_hash = false)
    (hlt : user.failed_logins + 1 < MAX_FAILED_LOGIN) :
    (authenticate checkpw store1 un1 pw1 ip1 now1).msg
        = (authenticate checkpw store2 un2 pw2 ip2 now2).msg ∧
    (authenticate checkpw store1 un1 pw1 ip1 now1).msg = "Invalid credentials." := by
  have hmsg2 : (authenticate checkpw store2 un2 pw2 ip2 now2).msg = "Invalid credentials." := by
    simp [authenticate, h2, hb, passwordStep, hpw, Nat.not_le.mpr hlt]
  have hmsg1 : (authenticate checkpw store1 un1 pw1 ip1 now1).msg = "Invalid credentials." := by
    simp [authenticate, h1]
  exact ⟨hmsg1.trans hmsg2.symm, hmsg1⟩

/-- C8, witness: unknown user "ghost" and known user "alice" with a wrong
password receive the same message. -/
theorem claim8_no_enumeration_witness :
    (authenticate (fun p h => p == h) [] "ghost" "x" none 7).msg
        = (authenticate (fun p h => p == h) [mkUser "U1" "alice" "pw" 0 none]
            "alice" "wrong" none 7).msg ∧
    (authenticate (fun p h => p == h) [] "ghost" "x" none 7).msg = "Invalid credentials." :=
  claim8_no_enumeration (fun p h => p == h) [] [mkUser "U1" "alice" "pw" 0 none]
    "ghost" "x" "alice" "wrong" none none 7 7 (mkUser "U1" "alice" "pw" 0 none)
    (by rfl) (by rfl) (by rfl) (by rfl) (by decide)

/-- C9: when a known user's stored `locked_until` is a string the timestamp
parser rejects, `authenticate` raises no error and proceeds directly to the
password check, exactly as it does for a user in Active state: the call equals
the password-check continuation applied to the same record. -/
theorem claim9_unparsable_lock (checkpw : String → String → Bool) (store : List User)
    (username password : String) (ip : Option String) (now : Nat)
    (user : User) (lu : String)
    (hfind : find_user_by_username store username = some user)
    (hlu : user.locked_until = some lu)
    (hparse : fromIso? (stripZ lu) = none) :
    authenticate checkpw store username password ip now =
      passwordStep checkpw store user password ip now := by
  have hb := lockedBlock_none_of_parse_fail user now lu hlu hparse
  simp [authenticate, hfind, hb]

/-- C9, witness: garbage in `locked_until` falls through to the password
check. -/
theorem claim9_unparsable_lock_witness :
    authenticate (fun p h => p == h) [mkUser "U1" "alice" "pw" 2 (some "not a time")]
        "alice" "pw" none 100 =
      passwordStep (fun p h => p == h) [mkUser "U1" "alice" "pw" 2 (some "not a time")]
        (mkUser "U1" "alice" "pw" 2 (some "not a time")) "pw" none 100 :=
  claim9_unparsable_lock (fun p h => p == h) [mkUser "U1" "alice" "pw" 2 (some "not a time")]
    "alice" "pw" none 100 (mkUser "U1" "alice" "pw" 2 (some "not a time")) "not a time"
    (by rfl) (by rfl) (by rfl)

/-- C10: for a user whose lockout window has expired but whose
`failed_logins` is still 5, one wrong-password call responds with a fresh
lockout message for `now + LOCKOUT_SECONDS` and logs `account_locked`, but the
persisted store keeps the old expired `locked_until` (the new one is never
saved); a correct-password call succeeds yet also leaves the persisted
`failed_logins` at 5 instead of resetting it, while `unlock_account` and
`reset_password` (which mutate the same load they save) do persist the reset
to 0. -/
theorem claim10_relock_not_persisted :
    (authenticate (fun p h => p == h) [mkUser "U1" "alice" "pw" 5 (some "10Z")]
        "alice" "wrong" none 100).msg
      = "Too many failed attempts. Account locked until 1000Z UTC." ∧
    (authenticate (fun p h => p == h) [mkUser "U1" "alice" "pw" 5 (some "10Z")]
        "alice" "wrong" none 100).logs
      = [{ timestamp := "100Z", event := "account_locked",
           user_id := some "U1", username := some "alice", ip := none }] ∧
    (authenticate (fun p h => p == h) [mkUser "U1" "alice" "pw" 5 (some "10Z")]
        "alice" "wrong" none 100).store
      = [mkUser "U1" "alice" "pw" 5 (some "10Z")] ∧
    (authenticate (fun p h => p == h) [mkUser "U1" "alice" "pw" 5 (some "10Z")]
        "alice" "pw" none 100).ok = true ∧
    (authenticate (fun p h => p == h) [mkUser "U1" "alice" "pw" 5 (some "10Z")]
        "alice" "pw" none 100).store
      = [mkUser "U1" "alice" "pw" 5 (some "10Z")] ∧
    (unlock_account [mkUser "U1" "alice" "pw" 5 (some "10Z")] "U1" 100).store
      = [mkUser "U1" "alice" "pw" 0 none] ∧
    (reset_password (fun p => p) [mkUser "U1" "alice" "pw" 5 (some "10Z")]
        "A@X.com" "newpw" 100).store
      = [mkUser "U1" "alice" "newpw" 0 none] := by
  exact ⟨rfl, rfl, rfl, rfl, rfl, rfl, rfl⟩

end Mineral
